import Mathlib

/-!
Verification development for the OpenAI → NVIDIA NIM proxy (`server.js`).

The JavaScript handler is shallowly embedded: JS strings become `String`,
JS numbers carried by `temperature` / `max_tokens` become `Rat` / `Int`
(their falsiness, `0`, is modelled explicitly), absent fields become
`Option`, and the thrown-exception path of the handler becomes an explicit
error constructor.  The streaming transcoder's mutable closure state
(`reasoningStarted`) becomes an explicit `Bool` threaded through a step
function; `false` is the spec's CLOSED state and `true` is OPEN.
-/

/-- JS truthiness of an optional string field: `undefined` and `""` are falsy. -/
def jsTruthy : Option String → Bool
  | none => false
  | some s => s != ""

/-- Value of an optional string field, `""` when absent (`x || ''`). -/
def jsStr : Option String → String
  | none => ""
  | some s => s

/-- JS `x || d` for an optional numeric field (`0` is falsy). -/
def jsOrRat (x : Option Rat) (d : Rat) : Rat :=
  match x with
  | none => d
  | some t => if t = 0 then d else t

/-- JS `x || d` for an optional integer field (`0` is falsy). -/
def jsOrInt (x : Option Int) (d : Int) : Int :=
  match x with
  | none => d
  | some n => if n = 0 then d else n

/-- `t` occurs as a contiguous substring of `s` (JS `s.includes(t)`), on char lists. -/
def includesList (s t : List Char) : Bool :=
  match s with
  | [] => t.isEmpty
  | _ :: rest => t.isPrefixOf s || includesList rest t

/-- JS `s.includes(t)`. -/
def jsIncludes (s t : String) : Bool :=
  includesList s.toList t.toList

/-- JS `s.toLowerCase()` (ASCII), as a character-wise map. -/
def jsToLower (s : String) : String :=
  ⟨s.data.map Char.toLower⟩

/-- `const SHOW_REASONING = true` (server.js line 18). -/
def SHOW_REASONING : Bool := true

/-- `const ENABLE_THINKING_MODE = true` (server.js line 21). -/
def ENABLE_THINKING_MODE : Bool := true

/-- The `MODEL_MAPPING` object literal (server.js lines 25-44), as an
association list in source order. -/
def MODEL_MAPPING : List (String × String) :=
  [ ("gpt-3.5-turbo", "z-ai/glm4.7"),
    ("gpt-4", "deepseek-ai/deepseek-v3.2"),
    ("gpt-4o", "deepseek-ai/deepseek-v3.1-terminus"),
    ("z-ai/glm4.7", "z-ai/glm4.7"),
    ("glm4.7", "z-ai/glm4.7"),
    ("deepseek-v3.2", "deepseek-ai/deepseek-v3.2"),
    ("deepseek-ai/deepseek-v3.2", "deepseek-ai/deepseek-v3.2"),
    ("3.1-terminus", "3.1-terminus"),
    ("claude-3-opus", "meta/llama-3.1-405b-instruct"),
    ("claude-3-sonnet", "meta/llama-3.1-70b-instruct"),
    ("deepseek-r1", "deepseek-ai/deepseek-r1") ]

/-- Model resolution (server.js lines 77-97).  `MODEL_MAPPING[model]` is the
association-list lookup; `!nimModel` is the `= ""` test on the `.getD ""`
value (the only falsy string); then the passthrough test and the ordered
heuristic chain over the lowercased name, with `"z-ai/glm4.7"` as the final
default. -/
def resolveModel (model : String) : String :=
  let nimModel := (MODEL_MAPPING.lookup model).getD ""
  if nimModel = "" then
    if jsIncludes model "/" || jsIncludes model "terminus" then model
    else
      let modelLower := jsToLower model
      if jsIncludes modelLower "gpt-4" || jsIncludes modelLower "opus" then
        "deepseek-ai/deepseek-v3.2"
      else if jsIncludes modelLower "terminus" then "3.1-terminus"
      else if jsIncludes modelLower "glm" then "z-ai/glm4.7"
      else "z-ai/glm4.7"
  else nimModel

/-- One chat message of the inbound request (content is never inspected). -/
structure ChatMessage where
  role : String
  content : String
  deriving Repr, DecidableEq

/-- The inbound request body fields destructured on server.js line 74;
every field may be absent. -/
structure ChatRequest where
  model : Option String
  messages : Option (List ChatMessage)
  temperature : Option Rat
  max_tokens : Option Int
  stream : Option Bool
  deriving Repr, DecidableEq

/-- `chat_template_kwargs: { thinking: true }` (server.js line 107). -/
structure ChatTemplateKwargs where
  thinking : Bool
  deriving Repr, DecidableEq

/-- The `extra_body` nested option object (server.js line 107). -/
structure ExtraBody where
  chat_template_kwargs : ChatTemplateKwargs
  deriving Repr, DecidableEq

/-- The backend request payload `nimRequest` (server.js lines 102-109). -/
structure NimRequest where
  model : String
  messages : Option (List ChatMessage)
  temperature : Rat
  max_tokens : Int
  extra_body : Option ExtraBody
  stream : Bool
  deriving Repr, DecidableEq

/-- `nimRequest` construction (server.js lines 102-109): `temperature || 0.6`,
`max_tokens || 4096`, `stream || false`, thinking-mode `extra_body`. -/
def buildNimRequest (nimModel : String) (req : ChatRequest) : NimRequest :=
  { model := nimModel
    messages := req.messages
    temperature := jsOrRat req.temperature 0.6
    max_tokens := jsOrInt req.max_tokens 4096
    extra_body := if ENABLE_THINKING_MODE then some ⟨⟨true⟩⟩ else none
    stream := (req.stream).getD false }

/-- The structured error body built by the catch block (server.js lines 224-230). -/
structure ErrorBody where
  message : String
  type : String
  code : Nat
  deriving Repr, DecidableEq

/-- The catch block (server.js lines 222-231):
`res.status(error.response?.status || 500)` with body
`{message: error.message || 'Internal server error', type, code}`.
`respStatus` is `error.response?.status` (absent for transport errors and
locally thrown exceptions); `0` is the only falsy `Nat`. -/
def catchBlock (respStatus : Option Nat) (msg : String) : Nat × ErrorBody :=
  let code : Nat :=
    match respStatus with
    | none => 500
    | some n => if n = 0 then 500 else n
  (code, { message := if msg = "" then "Internal server error" else msg
           type := "invalid_request_error"
           code := code })

/-- Outcome of the handler up to the backend call: either the catch block
already produced an error response, or an HTTP request to the backend is
issued. -/
inductive HandlerResult where
  | errorResponse (status : Nat) (body : ErrorBody)
  | backendCall (nimRequest : NimRequest) (stream : Bool)
  deriving Repr, DecidableEq

/-- `true` iff the handler reached the `axios.post` call. -/
def HandlerResult.isBackendCall : HandlerResult → Bool
  | .errorResponse _ _ => false
  | .backendCall _ _ => true

/-- The `/v1/chat/completions` handler up to the backend call (server.js
lines 72-118).  There is no validation of `model` or `messages`: when
`model` is absent, `MODEL_MAPPING[undefined]` is `undefined` and
`model.includes('/')` throws a `TypeError`, which the catch block turns
into a 500 response (no backend call); otherwise the request is always
forwarded, `messages` present or not. -/
def handleChatPre (req : ChatRequest) : HandlerResult :=
  match req.model with
  | none =>
      let r := catchBlock none "Cannot read properties of undefined (reading 'includes')"
      .errorResponse r.1 r.2
  | some model =>
      let nimModel := resolveModel model
      .backendCall (buildNimRequest nimModel req) ((req.stream).getD false)

/-- The two optional text channels of `choices[0].delta` in a backend
streaming chunk (server.js lines 157-159). -/
structure Delta where
  content : Option String
  reasoning_content : Option String
  deriving Repr, DecidableEq

/-- A parsed backend streaming chunk having `choices[0].delta`
(server.js line 156); `id` and `model` are the top-level fields the
handler reads or rewrites. -/
structure StreamEvent where
  id : String
  model : String
  delta : Delta
  deriving Repr, DecidableEq

/-- One unit of backend stream input: a parsed data event or the
`[DONE]` terminator sentinel. -/
inductive BackendItem where
  | ev (e : StreamEvent)
  | done
  deriving Repr, DecidableEq

/-- One unit of client output: a forwarded/synthetic chunk or the
forwarded `[DONE]` terminator. -/
inductive OutItem where
  | ev (e : StreamEvent)
  | done
  deriving Repr, DecidableEq

/-- The synthetic closing chunk written on `[DONE]` while reasoning is open
(server.js lines 141-147); its `model` is the client-requested model. -/
def closingChunk (clientModel : String) : StreamEvent :=
  { id := "closing-think"
    model := clientModel
    delta := { content := some "\n</think>\n\n", reasoning_content := none } }

/-- The SHOW_REASONING merge of one delta (server.js lines 162-176):
returns `(newContent, reasoningStarted)` after the two if-chains, where the
second chain reads the state already updated by the first. -/
def mergeDelta (rs : Bool) (d : Delta) : String × Bool :=
  let nc1 : String :=
    if jsTruthy d.reasoning_content && !rs then "<think>\n" ++ jsStr d.reasoning_content
    else if jsTruthy d.reasoning_content then jsStr d.reasoning_content
    else ""
  let rs1 : Bool := if jsTruthy d.reasoning_content && !rs then true else rs
  if jsTruthy d.content && rs1 then (nc1 ++ "\n</think>\n\n" ++ jsStr d.content, false)
  else if jsTruthy d.content then (nc1 ++ jsStr d.content, rs1)
  else (nc1, rs1)

/-- Processing of one backend item by the streaming handler
(server.js lines 139-188), threading the `reasoningStarted` flag:
`[DONE]` emits the synthetic closing chunk first when reasoning is open
(the flag is not reset there); a data event is merged (`SHOW_REASONING`
branch) or stripped (else branch), and written only when the resulting
content is truthy. -/
def stepItem (showReasoning : Bool) (clientModel : String) (rs : Bool) :
    BackendItem → Bool × List OutItem
  | .done =>
      if showReasoning && rs then (rs, [.ev (closingChunk clientModel), .done])
      else (rs, [.done])
  | .ev e =>
      if showReasoning then
        let m := mergeDelta rs e.delta
        if m.1 != "" then
          (m.2, [.ev { e with delta := { content := some m.1, reasoning_content := none } }])
        else (m.2, [])
      else
        let d2 : Delta :=
          { content := e.delta.content
            reasoning_content :=
              if jsTruthy e.delta.reasoning_content then none else e.delta.reasoning_content }
        if jsTruthy e.delta.content then (rs, [.ev { e with delta := d2 }])
        else (rs, [])

/-- Run the streaming transcoder over a list of backend items from a given
`reasoningStarted` state, returning the final state and the concatenated
client output (processing continues past a `[DONE]`, as the line loop does). -/
def runItems (showReasoning : Bool) (clientModel : String) :
    Bool → List BackendItem → Bool × List OutItem
  | rs, [] => (rs, [])
  | rs, it :: rest =>
      let s1 := stepItem showReasoning clientModel rs it
      let s2 := runItems showReasoning clientModel s1.1 rest
      (s2.1, s1.2 ++ s2.2)

/-- The content text a client output item carries, if any. -/
def outContent : OutItem → Option String
  | .ev e => e.delta.content
  | .done => none

/-- `true` iff a client output item carries no `reasoning_content` field and
exposes a present `content` field (the terminator trivially qualifies). -/
def outClean : OutItem → Bool
  | .ev e => e.delta.reasoning_content == none && e.delta.content.isSome
  | .done => true

/-- The message object of a non-streaming backend choice
(server.js lines 207-209). -/
structure BackendMessage where
  role : String
  content : Option String
  reasoning_content : Option String
  deriving Repr, DecidableEq

/-- One element of `response.data.choices` in the non-streaming case;
`message` may be absent (the source uses `choice.message?.`). -/
structure BackendChoice where
  index : Nat
  message : Option BackendMessage
  finish_reason : Option String
  deriving Repr, DecidableEq

/-- The `usage` counters (server.js line 217). -/
structure Usage where
  prompt_tokens : Nat
  completion_tokens : Nat
  total_tokens : Nat
  deriving Repr, DecidableEq

/-- The non-streaming backend response body fields the handler reads. -/
structure BackendResponse where
  choices : List BackendChoice
  usage : Option Usage
  deriving Repr, DecidableEq

/-- The message object written to the client (server.js line 213): built
fresh as `{role, content}`, so it never carries a `reasoning_content`
field (kept here as an always-`none` option so that absence is statable). -/
structure OutMessage where
  role : String
  content : String
  reasoning_content : Option String
  deriving Repr, DecidableEq

/-- One element of the outbound `choices` array (server.js lines 211-215). -/
structure OutChoice where
  index : Nat
  message : OutMessage
  finish_reason : Option String
  deriving Repr, DecidableEq

/-- The non-streaming `openaiResponse` fields with request-independent
values (server.js lines 201-218); `id`/`created` are clock reads and are
omitted. -/
structure OpenaiResponse where
  model : String
  choices : List OutChoice
  usage : Usage
  deriving Repr, DecidableEq

/-- The `choices.map` body (server.js lines 206-216): `none` models the
`TypeError` thrown by `choice.message.role` when `message` is absent;
otherwise `fullContent = choice.message?.content || ''`, wrapped in the
think markers when `SHOW_REASONING` and `reasoning_content` is truthy. -/
def transformChoice (c : BackendChoice) : Option OutChoice :=
  match c.message with
  | none => none
  | some msg =>
      let fullContent := jsStr msg.content
      let fullContent :=
        if SHOW_REASONING && jsTruthy msg.reasoning_content then
          "<think>\n" ++ jsStr msg.reasoning_content ++ "\n</think>\n\n" ++ fullContent
        else fullContent
      some { index := c.index
             message := { role := msg.role, content := fullContent, reasoning_content := none }
             finish_reason := c.finish_reason }

/-- The non-streaming handler body (server.js lines 199-219): maps
`transformChoice` over the choices (a thrown `TypeError` propagates, giving
`none`), masks `model` with the client-requested id, and defaults `usage`. -/
def buildOpenaiResponse (clientModel : String) (resp : BackendResponse) :
    Option OpenaiResponse :=
  match resp.choices.mapM transformChoice with
  | none => none
  | some cs => some { model := clientModel, choices := cs, usage := (resp.usage).getD ⟨0, 0, 0⟩ }

/-- The carry-buffer line split of one accumulated buffer (server.js lines
130-132): `buffer.split('\n')` followed by `buffer = lines.pop() || ''`,
returning the complete (newline-terminated) lines and the new buffer. -/
def splitBuffer : List Char → List (List Char) × List Char
  | [] => ([], [])
  | c :: rest =>
      if c = '\n' then ([] :: (splitBuffer rest).1, (splitBuffer rest).2)
      else
        match (splitBuffer rest).1 with
        | [] => ([], c :: (splitBuffer rest).2)
        | l :: ls => ((c :: l) :: ls, (splitBuffer rest).2)

/-- One `data` callback (server.js lines 129-132) after the per-chunk
decode: `chunk` is the string `chunk.toString()` already produced for this
`Buffer`, appended to the carried buffer; the complete lines are taken and
the remainder kept.  The byte level, where `toString` itself runs per
chunk, is `processByteChunks` below. -/
def chunkStep (acc : List (List Char) × List Char) (chunk : List Char) :
    List (List Char) × List Char :=
  let p := splitBuffer (acc.2 ++ chunk)
  (acc.1 ++ p.1, p.2)

/-- All complete lines processed over a sequence of already-decoded chunk
strings, with the final unflushed buffer (the `end` handler, server.js
line 193, discards it). -/
def processChunks (cs : List (List Char)) : List (List Char) × List Char :=
  cs.foldl chunkStep ([], [])

/-- UTF-8 decoding of one `Buffer` chunk as performed by Node's
`chunk.toString()` (server.js line 130): the WHATWG decoder — each
maximal invalid or truncated subpart (stray continuation byte, overlong
form, surrogate range, lead byte with too few continuation bytes, bytes
0xC0/0xC1/0xF5-0xFF) becomes one U+FFFD replacement character.  Decoding
is stateless per chunk: a multi-byte character split across two chunks
decodes to replacement characters in each fragment. -/
def utf8Decode : List Nat → List Char
  | [] => []
  | b :: rest =>
    if b ≤ 0x7F then Char.ofNat b :: utf8Decode rest
    else if 0xC2 ≤ b ∧ b ≤ 0xDF then
      match rest with
      | [] => ['�']
      | b2 :: rest2 =>
        if 0x80 ≤ b2 ∧ b2 ≤ 0xBF then
          Char.ofNat ((b - 0xC0) * 0x40 + (b2 - 0x80)) :: utf8Decode rest2
        else '�' :: utf8Decode (b2 :: rest2)
    else if 0xE0 ≤ b ∧ b ≤ 0xEF then
      match rest with
      | [] => ['�']
      | b2 :: rest2 =>
        if (if b = 0xE0 then 0xA0 else 0x80) ≤ b2 ∧ b2 ≤ (if b = 0xED then 0x9F else 0xBF) then
          match rest2 with
          | [] => ['�']
          | b3 :: rest3 =>
            if 0x80 ≤ b3 ∧ b3 ≤ 0xBF then
              Char.ofNat ((b - 0xE0) * 0x1000 + (b2 - 0x80) * 0x40 + (b3 - 0x80)) ::
                utf8Decode rest3
            else '�' :: utf8Decode (b3 :: rest3)
        else '�' :: utf8Decode (b2 :: rest2)
    else if 0xF0 ≤ b ∧ b ≤ 0xF4 then
      match rest with
      | [] => ['�']
      | b2 :: rest2 =>
        if (if b = 0xF0 then 0x90 else 0x80) ≤ b2 ∧ b2 ≤ (if b = 0xF4 then 0x8F else 0xBF) then
          match rest2 with
          | [] => ['�']
          | b3 :: rest3 =>
            if 0x80 ≤ b3 ∧ b3 ≤ 0xBF then
              match rest3 with
              | [] => ['�']
              | b4 :: rest4 =>
                if 0x80 ≤ b4 ∧ b4 ≤ 0xBF then
                  Char.ofNat
                      ((b - 0xF0) * 0x40000 + (b2 - 0x80) * 0x1000 +
                        (b3 - 0x80) * 0x40 + (b4 - 0x80)) :: utf8Decode rest4
                else '�' :: utf8Decode (b4 :: rest4)
            else '�' :: utf8Decode (b3 :: rest3)
        else '�' :: utf8Decode (b2 :: rest2)
    else '�' :: utf8Decode rest

/-- Standard UTF-8 encoding of one character, as a byte (`Nat`) list. -/
def utf8Encode (c : Char) : List Nat :=
  let v := c.toNat
  if v ≤ 0x7F then [v]
  else if v ≤ 0x7FF then [0xC0 + v / 0x40, 0x80 + v % 0x40]
  else if v ≤ 0xFFFF then [0xE0 + v / 0x1000, 0x80 + v / 0x40 % 0x40, 0x80 + v % 0x40]
  else [0xF0 + v / 0x40000, 0x80 + v / 0x1000 % 0x40, 0x80 + v / 0x40 % 0x40, 0x80 + v % 0x40]

/-- UTF-8 encoding of a character sequence. -/
def utf8EncodeList (l : List Char) : List Nat :=
  (l.map utf8Encode).flatten

/-- The streaming read loop at the byte level (server.js lines 129-132):
each `Buffer` chunk is decoded on its own by `chunk.toString()` and the
resulting string is appended to the carry buffer and split. -/
def processByteChunks (bs : List (List Nat)) : List (List Char) × List Char :=
  processChunks (bs.map utf8Decode)

/-- `runItems` distributes over list append: the state after the first part
feeds the second, outputs concatenate. -/
theorem runItems_append (sr : Bool) (m : String) (rs : Bool)
    (a b : List BackendItem) :
    runItems sr m rs (a ++ b) =
      ((runItems sr m (runItems sr m rs a).1 b).1,
       (runItems sr m rs a).2 ++ (runItems sr m (runItems sr m rs a).1 b).2) := by
  induction a generalizing rs with
  | nil => simp [runItems]
  | cons it a ih => simp [runItems, ih]

/-- C1: started CLOSED on the backend events `[{reasoning_content:"a"},
{reasoning_content:"b"}, {content:"c"}]`, the emitted events' contents
concatenate to open-marker ++ "ab" ++ close-marker ++ "c", and no emitted
event carries a `reasoning_content` field. -/
theorem C1_reasoning_merge_round_trip :
    String.join
        (((runItems SHOW_REASONING "client-model" false
            [BackendItem.ev ⟨"e1", "backend-model", ⟨none, some "a"⟩⟩,
             BackendItem.ev ⟨"e2", "backend-model", ⟨none, some "b"⟩⟩,
             BackendItem.ev ⟨"e3", "backend-model", ⟨some "c", none⟩⟩]).2).filterMap
          outContent)
      = "<think>\n" ++ "ab" ++ "\n</think>\n\n" ++ "c" ∧
    ((runItems SHOW_REASONING "client-model" false
        [BackendItem.ev ⟨"e1", "backend-model", ⟨none, some "a"⟩⟩,
         BackendItem.ev ⟨"e2", "backend-model", ⟨none, some "b"⟩⟩,
         BackendItem.ev ⟨"e3", "backend-model", ⟨some "c", none⟩⟩]).2).all outClean
      = true := by
  constructor
  · rfl
  · rfl

/-- C2 counterexample: after `[{reasoning_content:"x"}, [DONE]]` the
transcoder state is still OPEN (`true`): the flag is not reset to CLOSED
when the terminator is handled. -/
theorem C2_state_after_done_counterexample :
    ¬ ((runItems SHOW_REASONING "client-model" false
          [BackendItem.ev ⟨"e1", "backend-model", ⟨none, some "x"⟩⟩,
           BackendItem.done]).1 = false) := by
  decide

/-- C2 (amended): appending the terminator to any backend stream emits,
when the state reached is OPEN, exactly one synthetic closing-marker event
immediately before the forwarded terminator — but the state is left
unchanged (it remains OPEN rather than transitioning to CLOSED). -/
theorem C2_done_closing_event :
    ∀ (m : String) (pre : List BackendItem),
      runItems SHOW_REASONING m false (pre ++ [BackendItem.done]) =
        ((runItems SHOW_REASONING m false pre).1,
         (runItems SHOW_REASONING m false pre).2 ++
           (if (runItems SHOW_REASONING m false pre).1 then
              [OutItem.ev (closingChunk m), OutItem.done]
            else [OutItem.done])) := by
  intro m pre
  rw [runItems_append]
  cases h : (runItems SHOW_REASONING m false pre).1 <;>
    simp [runItems, stepItem, SHOW_REASONING, h]

/-- C4: an event whose delta has neither channel, or whose merged emission
is the empty string, produces no outbound client event. -/
theorem C4_empty_delta_suppression :
    ∀ (m : String) (rs : Bool) (e : StreamEvent),
      ((e.delta.content = none ∧ e.delta.reasoning_content = none) ∨
        (mergeDelta rs e.delta).1 = "") →
      (stepItem SHOW_REASONING m rs (BackendItem.ev e)).2 = [] := by
  intro m rs e h
  have hm : (mergeDelta rs e.delta).1 = "" := by
    rcases h with ⟨h1, h2⟩ | h
    · simp [mergeDelta, h1, h2, jsTruthy]
    · exact h
  simp [stepItem, SHOW_REASONING, hm]

/-- C4 witness: the theorem applied to a delta with both channels absent. -/
theorem C4_witness :
    (stepItem SHOW_REASONING "client-model" false
        (BackendItem.ev ⟨"e1", "backend-model", ⟨none, none⟩⟩)).2 = [] :=
  C4_empty_delta_suppression "client-model" false _ (Or.inl ⟨rfl, rfl⟩)

/-- C3: every client output item of the streaming step carries no
`reasoning_content` field and exposes a present `content` field, and the
non-streaming transform never puts a `reasoning_content` field on the
outbound message. -/
theorem C3_reasoning_field_stripped :
    ∀ (m : String) (rs : Bool) (it : BackendItem) (c : BackendChoice) (oc : OutChoice),
      ((stepItem SHOW_REASONING m rs it).2.all outClean = true) ∧
      (transformChoice c = some oc → oc.message.reasoning_content = none) := by
  intro m rs it c oc
  constructor
  · cases it with
    | done => cases rs <;> simp [stepItem, SHOW_REASONING, closingChunk, outClean]
    | ev e =>
        simp only [stepItem, SHOW_REASONING, if_true]
        split
        · simp [outClean]
        · simp
  · intro h
    cases hc : c.message with
    | none => simp [transformChoice, hc] at h
    | some msg =>
        simp only [transformChoice, hc, Option.some_inj] at h
        rw [← h]

/-- C3 witness: the theorem applied at a concrete event and a concrete
successfully transformed choice. -/
theorem C3_witness :
    ((stepItem SHOW_REASONING "client-model" false
        (BackendItem.ev ⟨"e1", "backend-model", ⟨some "hi", none⟩⟩)).2.all outClean
      = true) ∧
    (({ index := 0
        message := { role := "assistant", content := "hi", reasoning_content := none }
        finish_reason := some "stop" } : OutChoice).message.reasoning_content = none) :=
  ⟨(C3_reasoning_field_stripped "client-model" false
      (BackendItem.ev ⟨"e1", "backend-model", ⟨some "hi", none⟩⟩)
      ⟨0, some ⟨"assistant", some "hi", none⟩, some "stop"⟩
      ⟨0, ⟨"assistant", "hi", none⟩, some "stop"⟩).1,
   (C3_reasoning_field_stripped "client-model" false
      (BackendItem.ev ⟨"e1", "backend-model", ⟨some "hi", none⟩⟩)
      ⟨0, some ⟨"assistant", some "hi", none⟩, some "stop"⟩
      ⟨0, ⟨"assistant", "hi", none⟩, some "stop"⟩).2 (by decide)⟩

/-- A value produced by an association-list lookup is among the mapped
values. -/
theorem lookup_mem_values {l : List (String × String)} {a v : String}
    (h : l.lookup a = some v) : v ∈ l.map Prod.snd := by
  induction l with
  | nil => simp [List.lookup] at h
  | cons p l ih =>
      rw [List.lookup] at h
      rcases hp : (a == p.1) with _ | _
      · rw [hp] at h
        exact List.mem_cons_of_mem _ (ih h)
      · rw [hp] at h
        injection h with h
        exact h ▸ List.mem_cons_self _ _

/-- No value of the alias table is the empty string. -/
theorem MODEL_MAPPING_values_ne_empty :
    ∀ x ∈ MODEL_MAPPING.map Prod.snd, x ≠ "" := by decide

/-- A table hit resolves to exactly the mapped value. -/
theorem resolveModel_lookup_eq {m v : String}
    (h : MODEL_MAPPING.lookup m = some v) : resolveModel m = v := by
  have hv : v ≠ "" := MODEL_MAPPING_values_ne_empty v (lookup_mem_values h)
  simp [resolveModel, h, hv]

/-- Model resolution always yields a non-empty backend identifier. -/
theorem resolveModel_ne_empty (m : String) : resolveModel m ≠ "" := by
  cases h : MODEL_MAPPING.lookup m with
  | some v =>
      rw [resolveModel_lookup_eq h]
      exact MODEL_MAPPING_values_ne_empty v (lookup_mem_values h)
  | none =>
      rw [resolveModel]
      simp only [h, Option.getD_none, if_true]
      split
      · next hcond =>
          intro he
          rw [he] at hcond
          revert hcond
          decide
      · split
        · decide
        · split
          · decide
          · split
            · decide
            · decide

/-- C5: model resolution never fails — it always returns a non-empty
backend identifier; a key of the alias table resolves to exactly the
table's mapped value; when no table entry and no heuristic rule matches,
the configured default backend id is returned; and the function is a pure
function of its input (same input, same output). -/
theorem C5_model_resolution :
    ∀ m v : String,
      (MODEL_MAPPING.lookup m = some v → resolveModel m = v) ∧
      resolveModel m ≠ "" ∧
      ((MODEL_MAPPING.lookup m = none ∧
        jsIncludes m "/" = false ∧ jsIncludes m "terminus" = false ∧
        jsIncludes (jsToLower m) "gpt-4" = false ∧ jsIncludes (jsToLower m) "opus" = false ∧
        jsIncludes (jsToLower m) "terminus" = false ∧ jsIncludes (jsToLower m) "glm" = false) →
        resolveModel m = "z-ai/glm4.7") ∧
      resolveModel m = resolveModel m := by
  intro m v
  refine ⟨fun h => resolveModel_lookup_eq h, resolveModel_ne_empty m, fun h => ?_, rfl⟩
  obtain ⟨h0, h1, h2, h3, h4, h5, h6⟩ := h
  rw [resolveModel]
  simp [h0, h1, h2, h3, h4, h5, h6]

/-- C5 witness: the theorem applied at a table key and at a name matching
no table entry and no heuristic rule. -/
theorem C5_witness :
    resolveModel "gpt-4" = "deepseek-ai/deepseek-v3.2" ∧
    resolveModel "hello" = "z-ai/glm4.7" :=
  ⟨(C5_model_resolution "gpt-4" "deepseek-ai/deepseek-v3.2").1 (by decide),
   (C5_model_resolution "hello" "").2.2.1
     ⟨by decide, by decide, by decide, by decide, by decide, by decide, by decide⟩⟩

/-- C6 counterexample: a request missing `model` is answered with status
500 (the resolver's `model.includes` throws, caught by the generic catch
block), not the claimed 400; and a request missing only `messages` does
reach the backend call. -/
theorem C6_missing_fields_counterexample :
    handleChatPre
        { model := none, messages := some [⟨"user", "hi"⟩],
          temperature := none, max_tokens := none, stream := none } =
      HandlerResult.errorResponse 500
        ⟨"Cannot read properties of undefined (reading 'includes')",
         "invalid_request_error", 500⟩ ∧
    (500 : Nat) ≠ 400 ∧
    (handleChatPre
        { model := some "gpt-4", messages := none,
          temperature := none, max_tokens := none, stream := none }).isBackendCall
      = true := by
  refine ⟨rfl, by decide, rfl⟩

/-- C6 (amended): a request missing `model` receives a 500 structured
error response and no backend call is made (the failure is a caught
`TypeError`, not a validation); a request carrying a `model` but no
`messages` is not rejected — it is forwarded to the backend with
`messages` absent. -/
theorem C6_no_validation :
    ∀ req : ChatRequest,
      (req.model = none →
        handleChatPre req =
          HandlerResult.errorResponse 500
            ⟨"Cannot read properties of undefined (reading 'includes')",
             "invalid_request_error", 500⟩) ∧
      (∀ m, req.model = some m → req.messages = none →
        (handleChatPre req).isBackendCall = true) := by
  intro req
  constructor
  · intro h
    simp [handleChatPre, h, catchBlock]
  · intro m hm _
    simp [handleChatPre, hm, HandlerResult.isBackendCall]

/-- C6 witness: the amended theorem applied at the two concrete requests. -/
theorem C6_witness :
    handleChatPre
        { model := none, messages := some [⟨"user", "hi"⟩],
          temperature := none, max_tokens := none, stream := none } =
      HandlerResult.errorResponse 500
        ⟨"Cannot read properties of undefined (reading 'includes')",
         "invalid_request_error", 500⟩ ∧
    (handleChatPre
        { model := some "gpt-4", messages := none,
          temperature := none, max_tokens := none, stream := none }).isBackendCall
      = true :=
  ⟨(C6_no_validation
      { model := none, messages := some [⟨"user", "hi"⟩],
        temperature := none, max_tokens := none, stream := none }).1 rfl,
   (C6_no_validation
      { model := some "gpt-4", messages := none,
        temperature := none, max_tokens := none, stream := none }).2 "gpt-4" rfl rfl⟩

/-- C7 counterexample: `temperature: 0` and `max_tokens: 0` are present on
the request yet the backend request carries the defaults 0.6 and 4096 —
`||` treats the present value 0 as absent. -/
theorem C7_zero_counterexample :
    (buildNimRequest "z-ai/glm4.7"
        { model := some "gpt-3.5-turbo", messages := some [⟨"user", "hi"⟩],
          temperature := some 0, max_tokens := some 0, stream := none }).temperature
        = 0.6 ∧
    (0.6 : Rat) ≠ 0 ∧
    (buildNimRequest "z-ai/glm4.7"
        { model := some "gpt-3.5-turbo", messages := some [⟨"user", "hi"⟩],
          temperature := some 0, max_tokens := some 0, stream := none }).max_tokens
        = 4096 ∧
    (4096 : Int) ≠ 0 := by
  refine ⟨rfl, by norm_num, rfl, by norm_num⟩

/-- C7 (amended): `temperature` and `max_tokens` are taken verbatim when
present and nonzero; the configured defaults are applied when the field is
absent or equal to the falsy value 0; `stream` defaults to false when
absent. -/
theorem C7_request_defaults :
    ∀ (nm : String) (req : ChatRequest) (t : Rat) (n : Int),
      (req.temperature = some t → t ≠ 0 → (buildNimRequest nm req).temperature = t) ∧
      (req.temperature = none ∨ req.temperature = some 0 →
        (buildNimRequest nm req).temperature = 0.6) ∧
      (req.max_tokens = some n → n ≠ 0 → (buildNimRequest nm req).max_tokens = n) ∧
      (req.max_tokens = none ∨ req.max_tokens = some 0 →
        (buildNimRequest nm req).max_tokens = 4096) ∧
      (req.stream = none → (buildNimRequest nm req).stream = false) := by
  intro nm req t n
  refine ⟨?_, ?_, ?_, ?_, ?_⟩
  · intro h ht
    simp [buildNimRequest, jsOrRat, h, ht]
  · rintro (h | h) <;> simp [buildNimRequest, jsOrRat, h]
  · intro h hn
    simp [buildNimRequest, jsOrInt, h, hn]
  · rintro (h | h) <;> simp [buildNimRequest, jsOrInt, h]
  · intro h
    simp [buildNimRequest, h]

/-- C7 witness: the amended theorem applied at a request with nonzero
`temperature`, absent `max_tokens` and absent `stream`. -/
theorem C7_witness :
    (buildNimRequest "z-ai/glm4.7"
        { model := some "gpt-3.5-turbo", messages := some [⟨"user", "hi"⟩],
          temperature := some 1, max_tokens := none, stream := none }).temperature = 1 ∧
    (buildNimRequest "z-ai/glm4.7"
        { model := some "gpt-3.5-turbo", messages := some [⟨"user", "hi"⟩],
          temperature := some 1, max_tokens := none, stream := none }).max_tokens = 4096 ∧
    (buildNimRequest "z-ai/glm4.7"
        { model := some "gpt-3.5-turbo", messages := some [⟨"user", "hi"⟩],
          temperature := some 1, max_tokens := none, stream := none }).stream = false :=
  ⟨(C7_request_defaults "z-ai/glm4.7"
      { model := some "gpt-3.5-turbo", messages := some [⟨"user", "hi"⟩],
        temperature := some 1, max_tokens := none, stream := none } 1 4096).1 rfl
      (by norm_num),
   (C7_request_defaults "z-ai/glm4.7"
      { model := some "gpt-3.5-turbo", messages := some [⟨"user", "hi"⟩],
        temperature := some 1, max_tokens := none, stream := none } 1 4096).2.2.2.1
      (Or.inl rfl),
   (C7_request_defaults "z-ai/glm4.7"
      { model := some "gpt-3.5-turbo", messages := some [⟨"user", "hi"⟩],
        temperature := some 1, max_tokens := none, stream := none } 1 4096).2.2.2.2 rfl⟩

/-- C8: every backend failure reaching the catch block yields the
backend's status when it carries one (any real, nonzero HTTP status) and
500 otherwise, with a structured JSON error body whose message is never
empty. -/
theorem C8_error_mapping :
    ∀ (st : Option Nat) (msg : String) (n : Nat),
      (st = none → (catchBlock st msg).1 = 500) ∧
      (st = some n → n ≠ 0 → (catchBlock st msg).1 = n) ∧
      (catchBlock st msg).2.message ≠ "" ∧
      (catchBlock st msg).2.type = "invalid_request_error" := by
  intro st msg n
  refine ⟨fun h => by simp [catchBlock, h], fun h hn => by simp [catchBlock, h, hn], ?_, ?_⟩
  · by_cases hm : msg = "" <;> simp [catchBlock, hm]
  · simp [catchBlock]

/-- C8 witness: the theorem applied at a 404 backend reply and a
status-less transport error. -/
theorem C8_witness :
    (catchBlock (some 404) "Request failed with status code 404").1 = 404 ∧
    (catchBlock none "timeout of 120000ms exceeded").1 = 500 ∧
    (catchBlock none "").2.message ≠ "" :=
  ⟨(C8_error_mapping (some 404) "Request failed with status code 404" 404).2.1 rfl
      (by norm_num),
   (C8_error_mapping none "timeout of 120000ms exceeded" 0).1 rfl,
   (C8_error_mapping none "" 0).2.2.1⟩

/-- The carry buffer produced by `splitBuffer` never contains a newline. -/
theorem newline_not_mem_splitBuffer (s : List Char) :
    '\n' ∉ (splitBuffer s).2 := by
  induction s with
  | nil => simp [splitBuffer]
  | cons c rest ih =>
      by_cases hc : c = '\n'
      · subst hc
        simpa [splitBuffer] using ih
      · rcases h1 : (splitBuffer rest).1 with _ | ⟨l, ls⟩
        · simp only [splitBuffer, if_neg hc, h1, List.mem_cons, not_or]
          exact ⟨fun he => hc he.symm, ih⟩
        · simpa [splitBuffer, if_neg hc, h1] using ih

/-- A newline-free buffer splits into no complete line and itself. -/
theorem splitBuffer_of_newline_free (s : List Char) (h : '\n' ∉ s) :
    splitBuffer s = ([], s) := by
  induction s with
  | nil => simp [splitBuffer]
  | cons c rest ih =>
      have hc : c ≠ '\n' := fun he => h (by rw [he]; exact List.mem_cons_self _ _)
      have hrest : '\n' ∉ rest := fun hm => h (List.mem_cons_of_mem _ hm)
      simp [splitBuffer, hc, ih hrest]

/-- Splitting a concatenation: the complete lines of `a ++ b` are those of
`a` followed by those of `a`'s remainder glued onto `b`, and the final
remainder comes from that second split. -/
theorem splitBuffer_append (a b : List Char) :
    splitBuffer (a ++ b) =
      ((splitBuffer a).1 ++ (splitBuffer ((splitBuffer a).2 ++ b)).1,
       (splitBuffer ((splitBuffer a).2 ++ b)).2) := by
  induction a with
  | nil => simp [splitBuffer]
  | cons c a ih =>
      by_cases hc : c = '\n'
      · subst hc
        simp [splitBuffer, ih]
      · rcases h1 : (splitBuffer a).1 with _ | ⟨l, ls⟩
        · rcases h2 : (splitBuffer ((splitBuffer a).2 ++ b)).1 with _ | ⟨m, ms⟩
          · simp [splitBuffer, hc, ih, h1, h2]
          · simp [splitBuffer, hc, ih, h1, h2]
        · simp [splitBuffer, hc, ih, h1]

/-- The chunk fold, started on a newline-free carry buffer, processes
exactly the complete lines of the buffer glued onto the concatenation of
all chunks, and carries the remainder. -/
theorem foldl_chunkStep (cs : List (List Char)) :
    ∀ (out : List (List Char)) (buf : List Char), '\n' ∉ buf →
      cs.foldl chunkStep (out, buf) =
        (out ++ (splitBuffer (buf ++ cs.flatten)).1, (splitBuffer (buf ++ cs.flatten)).2) := by
  induction cs with
  | nil =>
      intro out buf h
      simp [splitBuffer_of_newline_free buf h]
  | cons c cs ih =>
      intro out buf h
      rw [List.foldl_cons]
      show List.foldl chunkStep
        (out ++ (splitBuffer (buf ++ c)).1, (splitBuffer (buf ++ c)).2) cs = _
      rw [ih _ _ (newline_not_mem_splitBuffer (buf ++ c))]
      rw [List.flatten_cons, ← List.append_assoc, splitBuffer_append (buf ++ c) cs.flatten]
      simp [List.append_assoc]

/-- The whole streaming read loop equals one split of the concatenated
byte sequence: the processed lines are exactly its newline-terminated
lines, and the trailing remainder is only carried, never processed. -/
theorem processChunks_eq_join (cs : List (List Char)) :
    processChunks cs = splitBuffer cs.flatten := by
  rw [processChunks, foldl_chunkStep cs [] [] (by simp)]
  simp

/-- Decoding inverts encoding character by character, also in front of any
trailing bytes. -/
theorem utf8Decode_encode_cons (c : Char) (bs : List Nat) :
    utf8Decode (utf8Encode c ++ bs) = c :: utf8Decode bs := by
  have hv : c.toNat < 0xD800 ∨ (0xDFFF < c.toNat ∧ c.toNat < 0x110000) := c.valid
  rw [utf8Encode]
  by_cases h1 : c.toNat ≤ 0x7F
  · rw [if_pos h1]
    simp only [List.cons_append, List.nil_append]
    conv_lhs => rw [utf8Decode.eq_def]
    dsimp only
    rw [if_pos h1, Char.ofNat_toNat]
  · rw [if_neg h1]
    by_cases h2 : c.toNat ≤ 0x7FF
    · rw [if_pos h2]
      have ha : ¬(0xC0 + c.toNat / 0x40 ≤ 0x7F) := by omega
      have hb : 0xC2 ≤ 0xC0 + c.toNat / 0x40 ∧ 0xC0 + c.toNat / 0x40 ≤ 0xDF := by omega
      have hc : 0x80 ≤ 0x80 + c.toNat % 0x40 ∧ 0x80 + c.toNat % 0x40 ≤ 0xBF := by omega
      simp only [List.cons_append, List.nil_append]
      conv_lhs => rw [utf8Decode.eq_def]
      dsimp only
      rw [if_neg ha, if_pos hb, if_pos hc]
      rw [show (0xC0 + c.toNat / 0x40 - 0xC0) * 0x40 + (0x80 + c.toNat % 0x40 - 0x80)
          = c.toNat from by omega, Char.ofNat_toNat]
    · rw [if_neg h2]
      by_cases h3 : c.toNat ≤ 0xFFFF
      · rw [if_pos h3]
        have ha : ¬(0xE0 + c.toNat / 0x1000 ≤ 0x7F) := by omega
        have hb : ¬(0xC2 ≤ 0xE0 + c.toNat / 0x1000 ∧ 0xE0 + c.toNat / 0x1000 ≤ 0xDF) := by
          omega
        have hc : 0xE0 ≤ 0xE0 + c.toNat / 0x1000 ∧ 0xE0 + c.toNat / 0x1000 ≤ 0xEF := by
          omega
        have hd : (if 0xE0 + c.toNat / 0x1000 = 0xE0 then 0xA0 else 0x80)
              ≤ 0x80 + c.toNat / 0x40 % 0x40 ∧
            0x80 + c.toNat / 0x40 % 0x40
              ≤ (if 0xE0 + c.toNat / 0x1000 = 0xED then 0x9F else 0xBF) := by
          constructor
          · split
            · next h => omega
            · omega
          · split
            · next h => omega
            · omega
        have he : 0x80 ≤ 0x80 + c.toNat % 0x40 ∧ 0x80 + c.toNat % 0x40 ≤ 0xBF := by omega
        simp only [List.cons_append, List.nil_append]
        conv_lhs => rw [utf8Decode.eq_def]
        dsimp only
        rw [if_neg ha, if_neg hb, if_pos hc, if_pos hd, if_pos he]
        rw [show (0xE0 + c.toNat / 0x1000 - 0xE0) * 0x1000 +
            (0x80 + c.toNat / 0x40 % 0x40 - 0x80) * 0x40 +
            (0x80 + c.toNat % 0x40 - 0x80) = c.toNat from by omega, Char.ofNat_toNat]
      · rw [if_neg h3]
        have ha : ¬(0xF0 + c.toNat / 0x40000 ≤ 0x7F) := by omega
        have hb : ¬(0xC2 ≤ 0xF0 + c.toNat / 0x40000 ∧ 0xF0 + c.toNat / 0x40000 ≤ 0xDF) := by
          omega
        have hc : ¬(0xE0 ≤ 0xF0 + c.toNat / 0x40000 ∧ 0xF0 + c.toNat / 0x40000 ≤ 0xEF) := by
          omega
        have hd : 0xF0 ≤ 0xF0 + c.toNat / 0x40000 ∧ 0xF0 + c.toNat / 0x40000 ≤ 0xF4 := by
          omega
        have he : (if 0xF0 + c.toNat / 0x40000 = 0xF0 then 0x90 else 0x80)
              ≤ 0x80 + c.toNat / 0x1000 % 0x40 ∧
            0x80 + c.toNat / 0x1000 % 0x40
              ≤ (if 0xF0 + c.toNat / 0x40000 = 0xF4 then 0x8F else 0xBF) := by
          constructor
          · split
            · next h => omega
            · omega
          · split
            · next h => omega
            · omega
        have hf : 0x80 ≤ 0x80 + c.toNat / 0x40 % 0x40 ∧
            0x80 + c.toNat / 0x40 % 0x40 ≤ 0xBF := by omega
        have hg : 0x80 ≤ 0x80 + c.toNat % 0x40 ∧ 0x80 + c.toNat % 0x40 ≤ 0xBF := by omega
        simp only [List.cons_append, List.nil_append]
        conv_lhs => rw [utf8Decode.eq_def]
        dsimp only
        rw [if_neg ha, if_neg hb, if_neg hc, if_pos hd, if_pos he, if_pos hf, if_pos hg]
        rw [show (0xF0 + c.toNat / 0x40000 - 0xF0) * 0x40000 +
            (0x80 + c.toNat / 0x1000 % 0x40 - 0x80) * 0x1000 +
            (0x80 + c.toNat / 0x40 % 0x40 - 0x80) * 0x40 +
            (0x80 + c.toNat % 0x40 - 0x80) = c.toNat from by omega, Char.ofNat_toNat]

/-- Decoding inverts encoding on whole character sequences. -/
theorem utf8Decode_encodeList (l : List Char) :
    utf8Decode (utf8EncodeList l) = l := by
  induction l with
  | nil => rfl
  | cons c l ih =>
      rw [utf8EncodeList, List.map_cons, List.flatten_cons, utf8Decode_encode_cons]
      rw [show (l.map utf8Encode).flatten = utf8EncodeList l from rfl, ih]

/-- Encoding a flattened character sequence equals flattening the per-chunk
encodings. -/
theorem utf8EncodeList_flatten (cs : List (List Char)) :
    utf8EncodeList cs.flatten = (cs.map utf8EncodeList).flatten := by
  induction cs with
  | nil => rfl
  | cons c cs ih =>
      rw [List.flatten_cons, utf8EncodeList, List.map_append, List.flatten_append,
        List.map_cons, List.flatten_cons, ← utf8EncodeList, ← utf8EncodeList, ih]

/-- On character-aligned chunks the byte-level loop coincides with the
string-level loop: per-chunk decoding undoes per-chunk encoding. -/
theorem processByteChunks_encode (cs : List (List Char)) :
    processByteChunks (cs.map utf8EncodeList) = processChunks cs := by
  rw [processByteChunks, List.map_map]
  congr 1
  have h : utf8Decode ∘ utf8EncodeList = id := by
    funext l
    exact utf8Decode_encodeList l
  rw [h, List.map_id]

/-- C9 counterexample: the same byte sequence 0xC3 0xA9 0x0A (the UTF-8
bytes of "é\n") partitioned in two ways — whole, versus split inside the
two-byte character — yields different processed lines: the aligned run
processes the line "é" while the split run's per-chunk `toString` turns
each fragment into U+FFFD and processes the line "��", so the
chunking-invariance claimed for arbitrary byte partitions is false. -/
theorem C9_byte_split_counterexample :
    ([[0xC3, 0xA9, 0x0A]] : List (List Nat)).flatten
      = ([[0xC3], [0xA9, 0x0A]] : List (List Nat)).flatten ∧
    processByteChunks [[0xC3, 0xA9, 0x0A]] ≠ processByteChunks [[0xC3], [0xA9, 0x0A]] := by
  constructor
  · rfl
  · decide

/-- C9 (amended): the line assembler is chunking-invariant for partitions
at character boundaries — for any two partitions of the same backend byte
sequence into chunks each of which is a well-formed UTF-8 encoding of a
character sequence, the per-chunk-decoded carry-buffer loop processes the
same complete lines (hence the same client output), namely the
newline-terminated lines of the full decoded text; the trailing partial
line stays in the carry buffer and is processed in neither run.
(Partitions splitting a multi-byte character are not equivalent: see the
counterexample.) -/
theorem C9_aligned_chunking_invariance :
    ∀ cs ds : List (List Char),
      (cs.map utf8EncodeList).flatten = (ds.map utf8EncodeList).flatten →
      processByteChunks (cs.map utf8EncodeList)
          = processByteChunks (ds.map utf8EncodeList) ∧
      processByteChunks (cs.map utf8EncodeList) = splitBuffer cs.flatten := by
  intro cs ds h
  have hchars : cs.flatten = ds.flatten := by
    have he : utf8EncodeList cs.flatten = utf8EncodeList ds.flatten := by
      rw [utf8EncodeList_flatten, utf8EncodeList_flatten, h]
    calc cs.flatten = utf8Decode (utf8EncodeList cs.flatten) :=
            (utf8Decode_encodeList _).symm
      _ = utf8Decode (utf8EncodeList ds.flatten) := by rw [he]
      _ = ds.flatten := utf8Decode_encodeList _
  rw [processByteChunks_encode, processByteChunks_encode]
  refine ⟨?_, processChunks_eq_join cs⟩
  rw [processChunks_eq_join, processChunks_eq_join, hchars]

/-- C9 witness: the amended theorem applied to two character-aligned
chunkings of the bytes of `"data: x\nda"`. -/
theorem C9_aligned_witness :
    processByteChunks
        ([['d','a','t','a',':',' ','x','\n'], ['d','a']].map utf8EncodeList)
      = processByteChunks
          ([['d','a','t','a',':',' ','x'], ['\n','d'], ['a']].map utf8EncodeList) ∧
    processByteChunks
        ([['d','a','t','a',':',' ','x','\n'], ['d','a']].map utf8EncodeList)
      = splitBuffer ([['d','a','t','a',':',' ','x','\n'], ['d','a']] : List (List Char)).flatten :=
  C9_aligned_chunking_invariance _ _ (by decide)

/-- `true` iff a client output item is either the terminator or an event
whose top-level `model` field equals the given backend-reported model. -/
def outModelIs (bm : String) : OutItem → Bool
  | .ev e => e.model == bm
  | .done => true

/-- C10: the non-streaming response's `model` field is unconditionally the
client-requested model id, while every streaming event forwarded from a
backend event keeps that backend event's `model` field unchanged. -/
theorem C10_model_masking :
    ∀ (clientModel : String) (resp : BackendResponse) (r : OpenaiResponse)
      (m : String) (rs : Bool) (e : StreamEvent),
      (buildOpenaiResponse clientModel resp = some r → r.model = clientModel) ∧
      ((stepItem SHOW_REASONING m rs (BackendItem.ev e)).2.all (outModelIs e.model)
        = true) := by
  intro clientModel resp r m rs e
  constructor
  · intro h
    rw [buildOpenaiResponse] at h
    cases hm : resp.choices.mapM transformChoice with
    | none => rw [hm] at h; exact absurd h (by simp)
    | some cs =>
        rw [hm, Option.some_inj] at h
        rw [← h]
  · simp only [stepItem, SHOW_REASONING, if_true]
    split
    · simp [outModelIs]
    · simp

/-- C10 witness: the theorem applied at a concrete one-choice backend
response and a concrete streaming event. -/
theorem C10_witness :
    ({ model := "gpt-4",
       choices := [{ index := 0,
                     message := { role := "assistant", content := "hi",
                                  reasoning_content := none },
                     finish_reason := some "stop" }],
       usage := ⟨1, 2, 3⟩ } : OpenaiResponse).model = "gpt-4" ∧
    ((stepItem SHOW_REASONING "gpt-4" false
        (BackendItem.ev ⟨"e1", "deepseek-ai/deepseek-v3.2", ⟨some "hi", none⟩⟩)).2.all
      (outModelIs "deepseek-ai/deepseek-v3.2") = true) :=
  ⟨(C10_model_masking "gpt-4"
      { choices := [⟨0, some ⟨"assistant", some "hi", none⟩, some "stop"⟩],
        usage := some ⟨1, 2, 3⟩ }
      { model := "gpt-4",
        choices := [⟨0, ⟨"assistant", "hi", none⟩, some "stop"⟩],
        usage := ⟨1, 2, 3⟩ }
      "gpt-4" false ⟨"e1", "deepseek-ai/deepseek-v3.2", ⟨some "hi", none⟩⟩).1 (by decide),
   (C10_model_masking "gpt-4"
      { choices := [⟨0, some ⟨"assistant", some "hi", none⟩, some "stop"⟩],
        usage := some ⟨1, 2, 3⟩ }
      { model := "gpt-4",
        choices := [⟨0, ⟨"assistant", "hi", none⟩, some "stop"⟩],
        usage := ⟨1, 2, 3⟩ }
      "gpt-4" false ⟨"e1", "deepseek-ai/deepseek-v3.2", ⟨some "hi", none⟩⟩).2⟩
